import Mathlib

/-!
Verification of the zengin bank-data synchronization lambdas
(diff processor, callback handler, diff executor).

The Python sources are shallowly embedded:
  * pure values become Lean structures (strings stay `String`, Python ints
    become `Nat`, Python floats used for the error rate become `ℚ`,
    exceptions become `Except String`);
  * the PostgreSQL system of record is a `DBState` (row lists); one run's
    transaction keeps the original state next to the working state and the
    commit/rollback decision selects one of them;
  * the DynamoDB status table is a list of records, `update_item` is a
    keyed in-place update with an optional condition (the code passes no
    ConditionExpression, hence `none`);
  * wall-clock times are seconds (JST) as `Nat`.
-/

namespace Zengin

/-- Bank/branch snapshot, `BankData` dataclass
(src/lambda/zengin-diff-processor/main.py and zengin-diff-executor/main.py). -/
structure BankData where
  swift_code : String
  bank_name : String
  bank_name_kana : String
  branch_code : String
  branch_name : String
  branch_name_kana : String
deriving DecidableEq, Repr

/-- One detected difference, `BankDiff` dataclass. -/
structure BankDiff where
  action : String
  key : String
  old_data : Option BankData := none
  new_data : Option BankData := none
  total_accounts : Nat := 0
  active_users : Nat := 0
deriving DecidableEq, Repr

/-- `ExecutionResult` dataclass (zengin-diff-executor/main.py). -/
structure ExecutionResult where
  success : Bool
  processed_count : Nat
  error_count : Nat
  errors : List String
  details : String
deriving DecidableEq, Repr

/-! ## System of record (PostgreSQL) -/

/-- A row of the `m_bank` table (the columns this system reads or writes;
`created_at`/`updated_at` timestamps are not modelled). -/
structure MBankRow where
  swift_code : String
  bank_name : String
  bank_name_kana : String
  branch_code : String
  branch_name : String
  branch_name_kana : String
  is_deleted : Nat
  updated_user : Option String := none
deriving DecidableEq, Repr

/-- A row of the `user_bank_account` table (columns touched by the cascade
update in `_update_user_bank_accounts`). -/
structure UserBankAccountRow where
  bank_swift_code : String
  branch_code : String
  bank_name : String
  branch_name : String
  is_deleted : Nat
  updated_user : Option String := none
deriving DecidableEq, Repr

/-- The system-of-record database state seen by one run. -/
structure DBState where
  m_bank : List MBankRow
  user_bank_account : List UserBankAccountRow
deriving DecidableEq, Repr

/-- Cascade update of `user_bank_account` rows sharing the bank/branch key,
`DatabaseClient._update_user_bank_accounts`.  The Python body catches every
exception itself (the error is logged only), so the embedding is total. -/
def update_user_bank_accounts (db : DBState) (swift_code branch_code : String)
    (nd : BankData) : DBState :=
  { db with user_bank_account := db.user_bank_account.map fun u =>
      if u.bank_swift_code == swift_code && u.branch_code == branch_code
          && u.is_deleted == 0 then
        { u with bank_name := nd.bank_name, branch_name := nd.branch_name,
                 updated_user := some "zengin-updater" }
      else u }

/-- Helper for `pySplitDash`: split a character list at every dash. -/
def splitDashAux : List Char → List Char → List (List Char)
  | [], acc => [acc.reverse]
  | c :: rest, acc =>
    if c = '-' then acc.reverse :: splitDashAux rest []
    else splitDashAux rest (c :: acc)

/-- Embedding of Python's `key.split("-")`: split at every dash; a string
with no dash yields a one-element list, the empty string yields `[""]`. -/
def pySplitDash (s : String) : List String :=
  (splitDashAux s.data []).map fun cs => ⟨cs⟩

/-- One entry applied against the system of record,
`DatabaseClient.execute_diff`.  Failure modes kept from the source:
`diff.key.split("-")` must unpack into exactly two names (otherwise Python
raises ValueError), and a create/update with `new_data = None` raises
AttributeError when the SQL parameters are built.  An update or soft-delete
that matches zero rows only logs a warning and still succeeds. -/
def execute_diff (diff : BankDiff) (db : DBState) : Except String DBState :=
  match pySplitDash diff.key with
  | [swift_code, branch_code] =>
    if diff.action == "create" then
      match diff.new_data with
      | none => .error "AttributeError: NoneType has no attribute swift_code"
      | some nd =>
        .ok { db with m_bank := db.m_bank ++
          [{ swift_code := nd.swift_code, bank_name := nd.bank_name,
             bank_name_kana := nd.bank_name_kana, branch_code := nd.branch_code,
             branch_name := nd.branch_name, branch_name_kana := nd.branch_name_kana,
             is_deleted := 0 }] }
    else if diff.action == "update" then
      match diff.new_data with
      | none => .error "AttributeError: NoneType has no attribute bank_name"
      | some nd =>
        let db1 : DBState := { db with m_bank := db.m_bank.map fun r =>
          if r.swift_code == swift_code && r.branch_code == branch_code
              && r.is_deleted == 0 then
            { r with bank_name := nd.bank_name, bank_name_kana := nd.bank_name_kana,
                     branch_name := nd.branch_name,
                     branch_name_kana := nd.branch_name_kana,
                     updated_user := some "zengin-updater" }
          else r }
        .ok (update_user_bank_accounts db1 swift_code branch_code nd)
    else if diff.action == "delete" then
      .ok { db with m_bank := db.m_bank.map fun r =>
        if r.swift_code == swift_code && r.branch_code == branch_code
            && r.is_deleted == 0 then
          { r with is_deleted := 1 }
        else r }
    else
      .ok db
  | _ => .error "ValueError: key does not split into swift_code-branch_code"

/-- Accumulator of the per-entry loop in `BankUpdater.execute_update`. -/
structure LoopState where
  success_count : Nat
  error_count : Nat
  errors : List String
  db : DBState
deriving DecidableEq, Repr

/-- The per-entry loop of `BankUpdater.execute_update`: each entry's
exception is caught and counted, and the loop breaks early once the error
count reaches the hard ceiling of 100. -/
def applyLoop : List BankDiff → LoopState → LoopState
  | [], s => s
  | diff :: rest, s =>
    match execute_diff diff s.db with
    | .ok db' =>
      applyLoop rest { s with success_count := s.success_count + 1, db := db' }
    | .error e =>
      let s' : LoopState :=
        { s with error_count := s.error_count + 1,
                 errors := s.errors ++ [diff.key ++ ": " ++ e] }
      if s'.error_count ≥ 100 then s' else applyLoop rest s'

/-- Outcome of one run of the apply engine: the returned `ExecutionResult`,
whether the transaction was committed, and the system of record after
commit-or-rollback. -/
structure ExecOutcome where
  result : ExecutionResult
  committed : Bool
  db : DBState
deriving DecidableEq, Repr

/-- `BankUpdater.execute_update`, from the point where the diff list has been
loaded: run the per-entry loop inside one transaction, then commit when
`error_count == 0 or (error_count <= 10 and error_rate < 0.1)`, else roll
back.  Python computes `error_rate = error_count / len(diffs) if len(diffs)
> 0 else 0` in floats; the test `error_rate < 0.1` is embedded as the
exactly equivalent integer comparison `10 * error_count < len(diffs)` (for
an empty batch the Python rate is `0`, and `0 < 0.1` holds).  The theorems
below state the policy through the rational `error_count / len(diffs)`;
`div_lt_tenth_iff` bridges the two forms. -/
def execute_update (db : DBState) (diffs : List BankDiff) : ExecOutcome :=
  let s := applyLoop diffs ⟨0, 0, [], db⟩
  let rate_below_tenth : Bool :=
    if diffs.length > 0 then decide (10 * s.error_count < diffs.length) else true
  let overall_success : Bool :=
    s.error_count == 0 ||
      (decide (s.error_count ≤ 10) && rate_below_tenth)
  let details :=
    "成功: " ++ toString s.success_count ++ "件" ++
      (if s.error_count > 0 then ", エラー: " ++ toString s.error_count ++ "件" else "")
  { result :=
      { success := overall_success
        processed_count := s.success_count
        error_count := s.error_count
        errors := s.errors
        details := details }
    committed := overall_success
    db := if overall_success then s.db else db }

/-- The loop never loses entries while under the early-exit ceiling: when the
final error count is below 100, every entry was consumed and each one was
counted exactly once as a success or an error. -/
theorem applyLoop_counts (diffs : List BankDiff) (s : LoopState)
    (h : (applyLoop diffs s).error_count < 100) :
    (applyLoop diffs s).success_count + (applyLoop diffs s).error_count =
      s.success_count + s.error_count + diffs.length := by
  induction diffs generalizing s with
  | nil => simp [applyLoop]
  | cons d rest ih =>
    simp only [applyLoop] at h ⊢
    cases hx : execute_diff d s.db with
    | ok db' =>
      simp only [hx] at h ⊢
      have h2 := ih { s with success_count := s.success_count + 1, db := db' } h
      simp only [List.length_cons]
      simp only [LoopState.success_count, LoopState.error_count] at h2
      omega
    | error e =>
      simp only [hx] at h ⊢
      by_cases hc : s.error_count + 1 ≥ 100
      · rw [if_pos hc] at h
        simp only [LoopState.error_count] at h
        omega
      · rw [if_neg hc] at h ⊢
        have h2 := ih { s with error_count := s.error_count + 1,
                               errors := s.errors ++ [d.key ++ ": " ++ e] } h
        simp only [List.length_cons]
        simp only [LoopState.success_count, LoopState.error_count] at h2
        omega

/-! ## Concrete apply-engine inputs used by witnesses and counterexamples -/

/-- A well-formed authoritative snapshot for one branch. -/
def sampleBank (branch : String) : BankData :=
  ⟨"0001", "テスト銀行", "ﾃｽﾄ", branch, "本店", "ﾎﾝﾃﾝ"⟩

/-- A create entry whose key splits correctly, so it applies cleanly. -/
def goodCreate (branch : String) : BankDiff :=
  { action := "create", key := "0001-" ++ branch, new_data := some (sampleBank branch) }

/-- An entry whose key has no dash: `diff.key.split("-")` does not unpack
into two names, so `execute_diff` raises for it. -/
def badKeyDiff : BankDiff :=
  { action := "create", key := "BADKEY", new_data := some (sampleBank "001") }

/-- Empty system of record. -/
def emptyDB : DBState := ⟨[], []⟩

/-- Batch of 3 entries of which exactly one fails during apply. -/
def diffsThreeOneBad : List BankDiff :=
  [goodCreate "001", goodCreate "002", badKeyDiff]

/-- The integer form of the rate test used by `execute_update` agrees with
the rational error rate of the claims. -/
theorem div_lt_tenth_iff (ec len : Nat) (hlen : 0 < len) :
    ((ec : ℚ) / (len : ℚ) < 1/10) ↔ 10 * ec < len := by
  rw [div_lt_div_iff₀ (by exact_mod_cast hlen) (by norm_num : (0:ℚ) < 10), one_mul]
  norm_cast
  omega

/-- C1: for every executed diff batch, the transaction is committed if and
only if `error_count == 0`, or `error_count ≤ 10` and the error rate
(`error_count` over the number of entries) is strictly below 10%; otherwise
the run is rolled back, and the returned `ExecutionResult.success` equals
the commit decision. -/
theorem c1_commit_iff_policy (db : DBState) (diffs : List BankDiff) :
    ((execute_update db diffs).committed = true ↔
      ((execute_update db diffs).result.error_count = 0 ∨
        ((execute_update db diffs).result.error_count ≤ 10 ∧
          (if diffs.length > 0 then
              ((execute_update db diffs).result.error_count : ℚ) / (diffs.length : ℚ)
            else 0) < 1/10)))
    ∧ (execute_update db diffs).result.success = (execute_update db diffs).committed
    ∧ ((execute_update db diffs).committed = false →
        (execute_update db diffs).db = db) := by
  refine ⟨?_, rfl, ?_⟩
  · show ((applyLoop diffs ⟨0, 0, [], db⟩).error_count == 0 ||
        (decide ((applyLoop diffs ⟨0, 0, [], db⟩).error_count ≤ 10) &&
          (if diffs.length > 0 then
              decide (10 * (applyLoop diffs ⟨0, 0, [], db⟩).error_count < diffs.length)
            else true))) = true ↔
      ((applyLoop diffs ⟨0, 0, [], db⟩).error_count = 0 ∨
        ((applyLoop diffs ⟨0, 0, [], db⟩).error_count ≤ 10 ∧
          (if diffs.length > 0 then
              ((applyLoop diffs ⟨0, 0, [], db⟩).error_count : ℚ) / (diffs.length : ℚ)
            else 0) < 1/10))
    rcases Nat.eq_zero_or_pos diffs.length with h0 | hpos
    · rw [h0]
      norm_num
    · rw [if_pos hpos, if_pos hpos]
      simp only [Bool.or_eq_true, beq_iff_eq, Bool.and_eq_true, decide_eq_true_eq,
        div_lt_tenth_iff _ _ hpos]
  · intro h
    have hdb : (execute_update db diffs).db =
        if (execute_update db diffs).committed
        then (applyLoop diffs ⟨0, 0, [], db⟩).db else db := rfl
    rw [hdb, h]
    simp

/-- C1 witness: with a single failing entry the policy denies the commit and
the run leaves the system of record untouched. -/
theorem c1_commit_iff_policy_witness :
    (execute_update emptyDB [badKeyDiff]).committed = false ∧
      (execute_update emptyDB [badKeyDiff]).db = emptyDB :=
  ⟨by decide, (c1_commit_iff_policy emptyDB [badKeyDiff]).2.2 (by decide)⟩

/-- C2 counterexample: a batch of exactly 3 entries with exactly 1 failure
(error rate 1/3) is NOT committed: the engine rolls back and returns
`success = false`, refuting the claim that `error_count ≤ 10` alone
suffices to commit. -/
theorem c2_counterexample_three_entries :
    diffsThreeOneBad.length = 3 ∧
    (execute_update emptyDB diffsThreeOneBad).result.error_count = 1 ∧
    (execute_update emptyDB diffsThreeOneBad).result.processed_count = 2 ∧
    (execute_update emptyDB diffsThreeOneBad).result.success = false ∧
    (execute_update emptyDB diffsThreeOneBad).committed = false := by
  decide

/-- C2 amended: for a batch of exactly 3 entries of which exactly 1 fails,
the error rate is 1/3 which is at least 10%, so the policy rolls the
transaction back and the engine returns `processed_count = 2`,
`error_count = 1` and `success = false`. -/
theorem c2_three_entries_one_error (db : DBState) (diffs : List BankDiff)
    (hlen : diffs.length = 3)
    (herr : (execute_update db diffs).result.error_count = 1) :
    (execute_update db diffs).result.success = false ∧
    (execute_update db diffs).result.processed_count = 2 ∧
    (execute_update db diffs).committed = false ∧
    (execute_update db diffs).db = db := by
  have hec : (applyLoop diffs ⟨0, 0, [], db⟩).error_count = 1 := herr
  have hcounts := applyLoop_counts diffs ⟨0, 0, [], db⟩ (by rw [hec]; omega)
  rw [hec, hlen] at hcounts
  have hsc : (applyLoop diffs ⟨0, 0, [], db⟩).success_count = 2 := by
    simp only [LoopState.success_count, LoopState.error_count] at hcounts
    omega
  have hov : (execute_update db diffs).committed = false := by
    show ((applyLoop diffs ⟨0, 0, [], db⟩).error_count == 0 ||
        (decide ((applyLoop diffs ⟨0, 0, [], db⟩).error_count ≤ 10) &&
          (if diffs.length > 0 then
              decide (10 * (applyLoop diffs ⟨0, 0, [], db⟩).error_count < diffs.length)
            else true))) = false
    rw [hec, hlen]
    decide
  refine ⟨hov, hsc, hov, ?_⟩
  have hdb : (execute_update db diffs).db =
      if (execute_update db diffs).committed
      then (applyLoop diffs ⟨0, 0, [], db⟩).db else db := rfl
  rw [hdb, hov]
  simp

/-- C2 witness: the amended statement evaluated on the concrete 3-entry
batch with one bad entry. -/
theorem c2_three_entries_one_error_witness :
    diffsThreeOneBad.length = 3 ∧
    (execute_update emptyDB diffsThreeOneBad).result.error_count = 1 ∧
    (execute_update emptyDB diffsThreeOneBad).result.success = false ∧
    (execute_update emptyDB diffsThreeOneBad).db = emptyDB :=
  ⟨by decide, by decide,
    (c2_three_entries_one_error emptyDB diffsThreeOneBad (by decide) (by decide)).1,
    (c2_three_entries_one_error emptyDB diffsThreeOneBad (by decide) (by decide)).2.2.2⟩

/-- C3: whenever `error_count > 10` and the error rate is at least 10%, the
transaction is rolled back and the system of record after the run equals the
system of record before it — no insert, update or soft-delete persists. -/
theorem c3_rollback_zero_changes (db : DBState) (diffs : List BankDiff)
    (h10 : (execute_update db diffs).result.error_count > 10)
    (hrate : (1:ℚ)/10 ≤
      ((execute_update db diffs).result.error_count : ℚ) / (diffs.length : ℚ)) :
    (execute_update db diffs).committed = false ∧
      (execute_update db diffs).db = db := by
  have hec : 10 < (applyLoop diffs ⟨0, 0, [], db⟩).error_count := h10
  have hov : (execute_update db diffs).committed = false := by
    show ((applyLoop diffs ⟨0, 0, [], db⟩).error_count == 0 ||
        (decide ((applyLoop diffs ⟨0, 0, [], db⟩).error_count ≤ 10) &&
          (if diffs.length > 0 then
              decide (10 * (applyLoop diffs ⟨0, 0, [], db⟩).error_count < diffs.length)
            else true))) = false
    have h1 : ((applyLoop diffs ⟨0, 0, [], db⟩).error_count == 0) = false := by
      simp only [beq_eq_false_iff_ne, ne_eq]
      omega
    have h2 : decide ((applyLoop diffs ⟨0, 0, [], db⟩).error_count ≤ 10) = false := by
      simp only [decide_eq_false_iff_not, not_le]
      omega
    rw [h1, h2]
    simp
  refine ⟨hov, ?_⟩
  have hdb : (execute_update db diffs).db =
      if (execute_update db diffs).committed
      then (applyLoop diffs ⟨0, 0, [], db⟩).db else db := rfl
  rw [hdb, hov]
  simp

/-- C3 witness: 11 failing entries out of 11 (error rate 1) roll the whole
run back. -/
theorem c3_rollback_zero_changes_witness :
    (execute_update emptyDB (List.replicate 11 badKeyDiff)).result.error_count > 10 ∧
    (1:ℚ)/10 ≤
      ((execute_update emptyDB (List.replicate 11 badKeyDiff)).result.error_count : ℚ) /
        ((List.replicate 11 badKeyDiff).length : ℚ) ∧
    (execute_update emptyDB (List.replicate 11 badKeyDiff)).db = emptyDB :=
  ⟨by decide,
    by
      rw [show (execute_update emptyDB
        (List.replicate 11 badKeyDiff)).result.error_count = 11 from by decide]
      norm_num,
    (c3_rollback_zero_changes emptyDB (List.replicate 11 badKeyDiff) (by decide)
      (by
        rw [show (execute_update emptyDB
          (List.replicate 11 badKeyDiff)).result.error_count = 11 from by decide]
        norm_num)).2⟩

/-! ## Approval state machine (zengin-callback-handler/main.py) -/

/-- A record of the DynamoDB diff status table, as written by
`store_diff_data` (processor) and mutated by the callback handler and the
executor.  The sort key `timestamp` (an ISO instant in the code) and the
schedule times are modelled as whole seconds.  The `slack_ts` attribute
appears only in the handler's scan filter; no writer in this repository
ever sets it, but it is kept as an optional attribute so the scan is
embedded faithfully. -/
structure DiffRecord where
  id : String
  timestamp : Int
  status : String
  message_ts : Option String := none
  slack_ts : Option String := none
  diffs_s3_key : Option String := none
  approved_by : Option String := none
  rejected_by : Option String := none
  approved_at : Option Int := none
  rejected_at : Option Int := none
  scheduled_at : Option Int := none
  execution_type : Option String := none
deriving DecidableEq, Repr

/-- Split a character list at every occurrence of `sep`. -/
def splitCharAux (sep : Char) : List Char → List Char → List (List Char)
  | [], acc => [acc.reverse]
  | c :: rest, acc =>
    if c = sep then acc.reverse :: splitCharAux sep rest []
    else splitCharAux sep rest (c :: acc)

/-- Decimal digit run to a number. -/
def digitsToNat (cs : List Char) : Nat :=
  cs.foldl (fun n c => 10 * n + (c.toNat - 48)) 0

/-- Embedding of `float(message_ts)` truncated to whole seconds: an integer
part with optional fractional digits around a single dot; anything else
raises ValueError in Python, i.e. `none` here. -/
def parseSlackTs (s : String) : Option Int :=
  match splitCharAux '.' s.data [] with
  | [a] =>
    if a ≠ [] ∧ a.all Char.isDigit then some (digitsToNat a) else none
  | [a, b] =>
    if a ≠ [] ∧ a.all Char.isDigit ∧ b ≠ [] ∧ b.all Char.isDigit then
      some (digitsToNat a)
    else none
  | _ => none

/-- `SlackInteractionHandler._find_diff_by_timestamp`: scan for
`slack_ts = message_ts` first; on a miss, parse the timestamp and scan a
±5-minute window restricted to `status = 'pending'`, returning the record
with the creation time closest to the parsed value (the first such record
on a tie, as Python's `min`). -/
def find_diff_by_timestamp (table : List DiffRecord) (message_ts : String) :
    Option DiffRecord :=
  match table.find? (fun r => r.slack_ts == some message_ts) with
  | some item => some item
  | none =>
    match parseSlackTs message_ts with
    | none => none
    | some tsv =>
      let items := table.filter fun r =>
        decide (tsv - 300 ≤ r.timestamp) && decide (r.timestamp ≤ tsv + 300) &&
          r.status == "pending"
      match items with
      | [] => none
      | x :: xs =>
        some (xs.foldl
          (fun best r =>
            if (r.timestamp - tsv).natAbs < (best.timestamp - tsv).natAbs then r
            else best)
          x)

/-- DynamoDB `update_item` keyed on `(id, timestamp)`: applies the attribute
updates to the matching record.  The optional `cond` models a
ConditionExpression (the write applies only where it holds); every call in
this handler passes `none` because the code sends no ConditionExpression. -/
def update_item (table : List DiffRecord) (id : String) (ts : Int)
    (upd : DiffRecord → DiffRecord) (cond : Option (DiffRecord → Bool)) :
    List DiffRecord :=
  table.map fun r =>
    if r.id == id && r.timestamp == ts then
      match cond with
      | none => upd r
      | some c => if c r then upd r else r
    else r

/-- Outbound side effects of the callback handler (Slack notifier,
EventBridge scheduler, executor lambda). -/
inductive Effect where
  | duplicateWarning (message_ts user_name action_name : String)
  | updateMessageWithResult (message_ts : String) (approved : Bool) (user_name : String)
  | createSchedule (schedule_name : String) (diff_id : String) (approved_by : String)
      (schedule_time : Nat) (execution_type : String)
  | invokeExecutor (diff_id : String) (approved_by : String)
deriving DecidableEq, Repr

/-- 23:00 of the calendar day containing `now` (seconds, JST):
`now.replace(hour=23, minute=0, second=0, microsecond=0)`. -/
def today23 (now : Nat) : Nat := (now / 86400) * 86400 + 23 * 3600

/-- `SlackInteractionHandler._calculate_schedule_time`: the fixed cutover
("scheduled"/"23:00") resolves to today's 23:00 JST, rolling to tomorrow
when that instant is not strictly in the future; the relative options add
1/3/5 hours to now; anything else defaults to one hour from now. -/
def calculate_schedule_time (execution_type execution_time : String) (now : Nat) :
    Nat :=
  if execution_type == "scheduled" && execution_time == "23:00" then
    let target := (now / 86400) * 86400 + 23 * 3600
    if target ≤ now then target + 86400 else target
  else if execution_type == "custom" then
    if execution_time == "1h" then now + 3600
    else if execution_time == "3h" then now + 3 * 3600
    else if execution_time == "5h" then now + 5 * 3600
    else now + 3600
  else now + 3600

/-- `SlackInteractionHandler._schedule_execution`: register the one-shot
schedule under the name derived from the run id, then update the record to
`scheduled` with approver, times and execution type — with no condition. -/
def schedule_execution (table : List DiffRecord) (item : DiffRecord)
    (user_name : String) (schedule_time : Nat) (execution_type : String)
    (now : Nat) : List DiffRecord × List Effect :=
  let effs := [Effect.createSchedule ("zengin-diff-execution-" ++ item.id)
    item.id user_name schedule_time execution_type]
  let table' := update_item table item.id item.timestamp
    (fun r =>
      { r with
          status := "scheduled"
          approved_by := some user_name
          approved_at := some (now : Int)
          scheduled_at := some (schedule_time : Int)
          execution_type := some execution_type })
    none
  (table', effs)

/-- `SlackInteractionHandler._execute_immediate`: asynchronously invoke the
executor lambda, then update the record to `approved` — with no condition. -/
def execute_immediate (table : List DiffRecord) (item : DiffRecord)
    (user_name : String) (now : Nat) : List DiffRecord × List Effect :=
  let effs := [Effect.invokeExecutor item.id user_name]
  let table' := update_item table item.id item.timestamp
    (fun r =>
      { r with
          status := "approved"
          approved_by := some user_name
          approved_at := some (now : Int)
          execution_type := some "immediate" })
    none
  (table', effs)

/-- What `_handle_approval` decides after its read phase: record not found,
record already off `pending` (duplicate), or proceed with the found item. -/
inductive ApprovalDecision where
  | notFound
  | duplicate (item : DiffRecord)
  | proceed (item : DiffRecord)
deriving DecidableEq, Repr

/-- Read phase of `_handle_approval` and `_handle_rejection`: the lookup and
the `status != 'pending'` check, both against the table as read. -/
def approval_decision (table : List DiffRecord) (message_ts : String) :
    ApprovalDecision :=
  match find_diff_by_timestamp table message_ts with
  | none => .notFound
  | some item =>
    if item.status != "pending" then .duplicate item else .proceed item

/-- Write phase of `_handle_approval`: acts on the decision of the read
phase.  Returns the table after any writes, the outbound effects in order,
and the ephemeral response text. -/
def approval_commit (table : List DiffRecord) (d : ApprovalDecision)
    (message_ts user_name execution_type execution_time : String) (now : Nat) :
    List DiffRecord × List Effect × String :=
  match d with
  | .notFound => (table, [], "対応する差分データが見つかりません")
  | .duplicate _ =>
    (table, [Effect.duplicateWarning message_ts user_name "通常承認"],
      "この差分は既に処理済みです")
  | .proceed item =>
    if execution_type == "immediate" then
      let p := execute_immediate table item user_name now
      (p.1, p.2 ++ [Effect.updateMessageWithResult message_ts true user_name],
        "即時実行を開始しました")
    else
      let st := calculate_schedule_time execution_type execution_time now
      let p := schedule_execution table item user_name st execution_type now
      (p.1, p.2 ++ [Effect.updateMessageWithResult message_ts true user_name],
        "承認されました")

/-- `SlackInteractionHandler._handle_approval`: read phase then write
phase. -/
def handle_approval (table : List DiffRecord)
    (message_ts user_name execution_type execution_time : String) (now : Nat) :
    List DiffRecord × List Effect × String :=
  approval_commit table (approval_decision table message_ts)
    message_ts user_name execution_type execution_time now

/-- `SlackInteractionHandler._handle_rejection`: lookup, duplicate guard,
then an unconditional update to `rejected`. -/
def handle_rejection (table : List DiffRecord)
    (message_ts user_name : String) (now : Nat) :
    List DiffRecord × List Effect × String :=
  match find_diff_by_timestamp table message_ts with
  | none => (table, [], "対応する差分データが見つかりません")
  | some item =>
    if item.status != "pending" then
      (table, [Effect.duplicateWarning message_ts user_name "却下"],
        "この差分は既に処理済みです")
    else
      let table' := update_item table item.id item.timestamp
        (fun r =>
          { r with
              status := "rejected"
              rejected_by := some user_name
              rejected_at := some (now : Int) })
        none
      (table', [Effect.updateMessageWithResult message_ts false user_name],
        "差分更新が却下されました")

/-! ## C4, C5, C6 -/

/-- A run record after completion, exactly as this system leaves it: created
by `store_diff_data` (which sets `message_ts` but never `slack_ts`) and
later moved to `completed` by the executor's status update. -/
def completedRecord : DiffRecord :=
  { id := "diff-20240101-000000", timestamp := 1000, status := "completed",
    message_ts := some "1000",
    diffs_s3_key := some "diffs/dev/diff-20240101-000000/full_diffs.json.gz" }

/-- Status table holding only the completed record. -/
def replayTable : List DiffRecord := [completedRecord]

/-- C4, evaluated at the failing input: replaying an approve or reject
action against a record whose status is `completed` performs no mutation,
registers no schedule and invokes no executor — but its only side effect is
NOT a duplicate-warning notification: the handler answers "not found" with
no effects at all, because the primary lookup filters on the never-written
`slack_ts` attribute and the fallback scan is restricted to
`status = 'pending'`, so a non-pending record is unreachable and the
duplicate-warning branch never runs. -/
theorem c4_replay_not_found_eval :
    handle_approval replayTable "1000" "alice" "scheduled" "23:00" 50000 =
      (replayTable, [], "対応する差分データが見つかりません") ∧
    handle_rejection replayTable "1000" "bob" 50000 =
      (replayTable, [], "対応する差分データが見つかりません") ∧
    find_diff_by_timestamp replayTable "1000" = none := by
  decide

/-- A freshly stored pending record (again with `message_ts`, no
`slack_ts`), findable through the fallback window scan. -/
def pendingRecord : DiffRecord :=
  { id := "diff-20240101-000001", timestamp := 1000, status := "pending",
    message_ts := some "1000",
    diffs_s3_key := some "diffs/dev/diff-20240101-000001/full_diffs.json.gz" }

/-- Status table holding only the pending record. -/
def raceTable : List DiffRecord := [pendingRecord]

/-- Two concurrent approval clicks: each invocation's read phase sees the
table before either write phase has landed (the interleaving DynamoDB
permits because the writes carry no ConditionExpression), then the write
phases land in order. -/
def raceApprovals (table : List DiffRecord) (message_ts u1 u2 : String)
    (now : Nat) : List DiffRecord × List Effect :=
  let d1 := approval_decision table message_ts
  let d2 := approval_decision table message_ts
  let p1 := approval_commit table d1 message_ts u1 "scheduled" "23:00" now
  let p2 := approval_commit p1.1 d2 message_ts u2 "custom" "1h" now
  (p2.1, p1.2.1 ++ p2.2.1)

/-- Number of schedule registrations among the effects. -/
def countScheduleRegistrations (effs : List Effect) : Nat :=
  effs.countP fun e =>
    match e with
    | .createSchedule _ _ _ _ _ => true
    | _ => false

/-- C5, evaluated at the failing input: the duplicate guard is a separate
read of the status followed by an unconditional `update_item` (no
ConditionExpression), so two concurrent approvals of the same pending run
both pass the guard: both register a schedule (two registrations) and both
transitions away from `pending` are written, the second overwriting the
first — refuting the claim that at most one transition succeeds. -/
theorem c5_race_two_transitions_eval :
    countScheduleRegistrations (raceApprovals raceTable "1000" "alice" "bob" 50000).2 = 2 ∧
    (raceApprovals raceTable "1000" "alice" "bob" 50000).1 =
      [{ pendingRecord with
          status := "scheduled"
          approved_by := some "bob"
          approved_at := some 50000
          scheduled_at := some 53600
          execution_type := some "custom" }] ∧
    (approval_commit raceTable (approval_decision raceTable "1000")
        "1000" "alice" "scheduled" "23:00" 50000).1 =
      [{ pendingRecord with
          status := "scheduled"
          approved_by := some "alice"
          approved_at := some 50000
          scheduled_at := some 82800
          execution_type := some "scheduled" }] := by
  decide

/-- C6: the fixed daily cutover resolves to the next occurrence of 23:00
JST — today's 23:00 when that is still strictly in the future, otherwise
(already passed, or exactly now) 23:00 of the next calendar day — and the
relative approvals resolve to now plus the chosen offset. -/
theorem c6_schedule_time (now : Nat) :
    (now < today23 now →
      calculate_schedule_time "scheduled" "23:00" now = today23 now)
  ∧ (today23 now ≤ now →
      calculate_schedule_time "scheduled" "23:00" now = today23 now + 86400)
  ∧ calculate_schedule_time "custom" "1h" now = now + 3600
  ∧ calculate_schedule_time "custom" "3h" now = now + 3 * 3600
  ∧ calculate_schedule_time "custom" "5h" now = now + 5 * 3600 := by
  refine ⟨?_, ?_, rfl, rfl, rfl⟩
  · intro h
    show (if now / 86400 * 86400 + 23 * 3600 ≤ now
        then now / 86400 * 86400 + 23 * 3600 + 86400
        else now / 86400 * 86400 + 23 * 3600) = today23 now
    rw [if_neg (by simp only [today23] at h; omega)]
    rfl
  · intro h
    show (if now / 86400 * 86400 + 23 * 3600 ≤ now
        then now / 86400 * 86400 + 23 * 3600 + 86400
        else now / 86400 * 86400 + 23 * 3600) = today23 now + 86400
    rw [if_pos (by simp only [today23] at h; omega)]
    rfl

/-- C6 witness: at 13:53:20 JST the cutover is still ahead, so the target is
today's 23:00 (82800); at 23:03:20 it has passed, so the target is the next
day's 23:00 (169200); a +3h approval lands exactly 3 hours later. -/
theorem c6_schedule_time_witness :
    calculate_schedule_time "scheduled" "23:00" 50000 = 82800 ∧
    calculate_schedule_time "scheduled" "23:00" 83000 = 169200 ∧
    calculate_schedule_time "custom" "3h" 50000 = 60800 :=
  ⟨((c6_schedule_time 50000).1 (by decide)).trans (by decide),
    ((c6_schedule_time 83000).2.1 (by decide)).trans (by decide),
    ((c6_schedule_time 50000).2.2.2.1).trans (by decide)⟩

/-! ## Diff detector (zengin-diff-processor/main.py) -/

/-- The `kana_map` dictionary of `ZenginClient._convert_kana_to_hankaku`:
full-width katakana (and both long-vowel dashes) to half-width katakana;
voiced and semi-voiced letters expand to two characters; characters outside
the map pass through unchanged. -/
def kana_map (c : Char) : String :=
  match c with
  | 'ア' => "ｱ" | 'イ' => "ｲ" | 'ウ' => "ｳ" | 'エ' => "ｴ" | 'オ' => "ｵ"
  | 'カ' => "ｶ" | 'キ' => "ｷ" | 'ク' => "ｸ" | 'ケ' => "ｹ" | 'コ' => "ｺ"
  | 'サ' => "ｻ" | 'シ' => "ｼ" | 'ス' => "ｽ" | 'セ' => "ｾ" | 'ソ' => "ｿ"
  | 'タ' => "ﾀ" | 'チ' => "ﾁ" | 'ツ' => "ﾂ" | 'テ' => "ﾃ" | 'ト' => "ﾄ"
  | 'ナ' => "ﾅ" | 'ニ' => "ﾆ" | 'ヌ' => "ﾇ" | 'ネ' => "ﾈ" | 'ノ' => "ﾉ"
  | 'ハ' => "ﾊ" | 'ヒ' => "ﾋ" | 'フ' => "ﾌ" | 'ヘ' => "ﾍ" | 'ホ' => "ﾎ"
  | 'マ' => "ﾏ" | 'ミ' => "ﾐ" | 'ム' => "ﾑ" | 'メ' => "ﾒ" | 'モ' => "ﾓ"
  | 'ヤ' => "ﾔ" | 'ユ' => "ﾕ" | 'ヨ' => "ﾖ"
  | 'ラ' => "ﾗ" | 'リ' => "ﾘ" | 'ル' => "ﾙ" | 'レ' => "ﾚ" | 'ロ' => "ﾛ"
  | 'ワ' => "ﾜ" | 'ヲ' => "ｦ" | 'ン' => "ﾝ"
  | 'ァ' => "ｧ" | 'ィ' => "ｨ" | 'ゥ' => "ｩ" | 'ェ' => "ｪ" | 'ォ' => "ｫ"
  | 'ッ' => "ｯ" | 'ャ' => "ｬ" | 'ュ' => "ｭ" | 'ョ' => "ｮ"
  | 'ガ' => "ｶﾞ" | 'ギ' => "ｷﾞ" | 'グ' => "ｸﾞ" | 'ゲ' => "ｹﾞ" | 'ゴ' => "ｺﾞ"
  | 'ザ' => "ｻﾞ" | 'ジ' => "ｼﾞ" | 'ズ' => "ｽﾞ" | 'ゼ' => "ｾﾞ" | 'ゾ' => "ｿﾞ"
  | 'ダ' => "ﾀﾞ" | 'ヂ' => "ﾁﾞ" | 'ヅ' => "ﾂﾞ" | 'デ' => "ﾃﾞ" | 'ド' => "ﾄﾞ"
  | 'バ' => "ﾊﾞ" | 'ビ' => "ﾋﾞ" | 'ブ' => "ﾌﾞ" | 'ベ' => "ﾍﾞ" | 'ボ' => "ﾎﾞ"
  | 'パ' => "ﾊﾟ" | 'ピ' => "ﾋﾟ" | 'プ' => "ﾌﾟ" | 'ペ' => "ﾍﾟ" | 'ポ' => "ﾎﾟ"
  | 'ヴ' => "ｳﾞ"
  | '－' => "ｰ" | 'ー' => "ｰ"
  | _ => String.singleton c

/-- Half-width katakana letter to its full-width counterpart (part of the
NFKC model below). -/
def nfkcHalfToFull (c : Char) : Option Char :=
  match c with
  | 'ｱ' => some 'ア' | 'ｲ' => some 'イ' | 'ｳ' => some 'ウ' | 'ｴ' => some 'エ'
  | 'ｵ' => some 'オ'
  | 'ｶ' => some 'カ' | 'ｷ' => some 'キ' | 'ｸ' => some 'ク' | 'ｹ' => some 'ケ'
  | 'ｺ' => some 'コ'
  | 'ｻ' => some 'サ' | 'ｼ' => some 'シ' | 'ｽ' => some 'ス' | 'ｾ' => some 'セ'
  | 'ｿ' => some 'ソ'
  | 'ﾀ' => some 'タ' | 'ﾁ' => some 'チ' | 'ﾂ' => some 'ツ' | 'ﾃ' => some 'テ'
  | 'ﾄ' => some 'ト'
  | 'ﾅ' => some 'ナ' | 'ﾆ' => some 'ニ' | 'ﾇ' => some 'ヌ' | 'ﾈ' => some 'ネ'
  | 'ﾉ' => some 'ノ'
  | 'ﾊ' => some 'ハ' | 'ﾋ' => some 'ヒ' | 'ﾌ' => some 'フ' | 'ﾍ' => some 'ヘ'
  | 'ﾎ' => some 'ホ'
  | 'ﾏ' => some 'マ' | 'ﾐ' => some 'ミ' | 'ﾑ' => some 'ム' | 'ﾒ' => some 'メ'
  | 'ﾓ' => some 'モ'
  | 'ﾔ' => some 'ヤ' | 'ﾕ' => some 'ユ' | 'ﾖ' => some 'ヨ'
  | 'ﾗ' => some 'ラ' | 'ﾘ' => some 'リ' | 'ﾙ' => some 'ル' | 'ﾚ' => some 'レ'
  | 'ﾛ' => some 'ロ'
  | 'ﾜ' => some 'ワ' | 'ｦ' => some 'ヲ' | 'ﾝ' => some 'ン'
  | 'ｧ' => some 'ァ' | 'ｨ' => some 'ィ' | 'ｩ' => some 'ゥ' | 'ｪ' => some 'ェ'
  | 'ｫ' => some 'ォ'
  | 'ｯ' => some 'ッ' | 'ｬ' => some 'ャ' | 'ｭ' => some 'ュ' | 'ｮ' => some 'ョ'
  | 'ｰ' => some 'ー'
  | _ => none

/-- Composition of a full-width base letter with a voiced sound mark. -/
def nfkcVoiced (c : Char) : Option Char :=
  match c with
  | 'カ' => some 'ガ' | 'キ' => some 'ギ' | 'ク' => some 'グ' | 'ケ' => some 'ゲ'
  | 'コ' => some 'ゴ'
  | 'サ' => some 'ザ' | 'シ' => some 'ジ' | 'ス' => some 'ズ' | 'セ' => some 'ゼ'
  | 'ソ' => some 'ゾ'
  | 'タ' => some 'ダ' | 'チ' => some 'ヂ' | 'ツ' => some 'ヅ' | 'テ' => some 'デ'
  | 'ト' => some 'ド'
  | 'ハ' => some 'バ' | 'ヒ' => some 'ビ' | 'フ' => some 'ブ' | 'ヘ' => some 'ベ'
  | 'ホ' => some 'ボ'
  | 'ウ' => some 'ヴ'
  | _ => none

/-- Composition of a full-width base letter with a semi-voiced sound mark. -/
def nfkcSemiVoiced (c : Char) : Option Char :=
  match c with
  | 'ハ' => some 'パ' | 'ヒ' => some 'ピ' | 'フ' => some 'プ' | 'ヘ' => some 'ペ'
  | 'ホ' => some 'ポ'
  | _ => none

/-- Modelled from Python's `unicodedata.normalize('NFKC', text)` restricted
to what it does on the characters this system feeds it: a half-width
katakana letter followed by a half-width (semi-)voicing mark composes into
the voiced full-width letter, a lone half-width katakana letter maps to its
full-width form, and every other character passes through.  `unicodedata`
is standard-library code outside this repository. -/
def nfkcAux : List Char → List Char
  | [] => []
  | [c] =>
    match nfkcHalfToFull c with
    | some f => [f]
    | none => [c]
  | c :: d :: rest =>
    match nfkcHalfToFull c with
    | some f =>
      if d = 'ﾞ' then
        match nfkcVoiced f with
        | some v => v :: nfkcAux rest
        | none => f :: nfkcAux (d :: rest)
      else if d = 'ﾟ' then
        match nfkcSemiVoiced f with
        | some v => v :: nfkcAux rest
        | none => f :: nfkcAux (d :: rest)
      else f :: nfkcAux (d :: rest)
    | none => c :: nfkcAux (d :: rest)

/-- NFKC normalization over strings (see `nfkcAux`). -/
def nfkc (s : String) : String := ⟨nfkcAux s.data⟩

/-- `ZenginClient._convert_kana_to_hankaku`: keep falsy (empty) input as is,
else NFKC-normalize and map every character through `kana_map`. -/
def convert_kana_to_hankaku (kana_text : String) : String :=
  if kana_text == "" then kana_text
  else String.join ((nfkc kana_text).data.map kana_map)

/-- The whitespace Python's `str.strip()` removes (ASCII subset occurring in
this data). -/
def isPySpace (c : Char) : Bool :=
  c == ' ' || c == '\t' || c == '\n' || c == '\r' || c == '\x0b' || c == '\x0c'

/-- Python `str.strip()`. -/
def pyStrip (s : String) : String :=
  ⟨((s.data.dropWhile isPySpace).reverse.dropWhile isPySpace).reverse⟩

/-- Python `str.endswith`. -/
def pyEndsWith (s suffix : String) : Bool :=
  suffix.data.isSuffixOf s.data

/-- Python `name[:-n]` for `0 < n ≤ len(name)` (character counts). -/
def pyDropRight (s : String) (n : Nat) : String :=
  ⟨s.data.take (s.data.length - n)⟩

/-- The suffix synonym groups of `_is_data_different` (`suffix_sets`). -/
def suffix_sets : List (List String) := [["支店", "支所", "出張所"]]

/-- The flattened suffix set.  At most one member can match the end of any
name (their last characters pairwise differ), so the Python set's iteration
order is immaterial. -/
def flat_suffixes : List String := ["支店", "支所", "出張所"]

/-- `split_suffix` inside `_is_data_different`: strip a recognised suffix
and return the whitespace-stripped base with that suffix, or the stripped
name with the empty suffix. -/
def split_suffix (name : String) : String × String :=
  match flat_suffixes.find? (fun s => pyEndsWith name s) with
  | some s => (pyStrip (pyDropRight name s.length), s)
  | none => (pyStrip name, "")

/-- `is_equivalent_suffix`: equal suffixes, or both members of one synonym
group. -/
def is_equivalent_suffix (s1 s2 : String) : Bool :=
  s1 == s2 || suffix_sets.any fun group => group.contains s1 && group.contains s2

/-- `DiffDetector._is_data_different`, checking the four monitored fields in
source order: plain stripped comparison for the bank name, half-width kana
comparison for the two phonetic fields, and base/suffix comparison for the
branch name (the final `return True` of that branch is kept although every
recognised suffix pair is in the one synonym group).  The code's
`None`-to-`""` normalization is subsumed by modelling the column values as
strings. -/
def is_data_different (current new : BankData) : Bool :=
  (pyStrip current.bank_name != pyStrip new.bank_name) ||
  (pyStrip (convert_kana_to_hankaku current.bank_name_kana) !=
    pyStrip (convert_kana_to_hankaku new.bank_name_kana)) ||
  (let pc := split_suffix current.branch_name
   let pn := split_suffix new.branch_name
   if pc.1 != pn.1 then true
   else if pc.2 == pn.2 || is_equivalent_suffix pc.2 pn.2 ||
       pc.2 == "" || pn.2 == "" then false
   else true) ||
  (pyStrip (convert_kana_to_hankaku current.branch_name_kana) !=
    pyStrip (convert_kana_to_hankaku new.branch_name_kana))

/-- First loop body of `detect_differences`: a key missing from the mirror
yields a create entry (new data only); a key present in both yields an
update entry (old and new) exactly when `_is_data_different` holds. -/
def createOrUpdateEntries (current_dict : List (String × BankData))
    (p : String × BankData) : List BankDiff :=
  match current_dict.lookup p.1 with
  | none =>
    [{ action := "create", key := p.1, old_data := none, new_data := some p.2 }]
  | some cur =>
    if is_data_different cur p.2 then
      [{ action := "update", key := p.1, old_data := some cur, new_data := some p.2 }]
    else []

/-- Second loop body of `detect_differences`: a key missing from the
authoritative map yields a delete entry (old data only). -/
def deleteEntries (latest_dict : List (String × BankData))
    (p : String × BankData) : List BankDiff :=
  match latest_dict.lookup p.1 with
  | some _ => []
  | none =>
    [{ action := "delete", key := p.1, old_data := some p.2, new_data := none }]

/-- The entries of `detect_differences` before impact statistics are
applied: creates/updates in authoritative order, then deletes in mirror
order. -/
def detectCore (current_dict latest_dict : List (String × BankData)) :
    List BankDiff :=
  (latest_dict.flatMap (createOrUpdateEntries current_dict)) ++
    (current_dict.flatMap (deleteEntries latest_dict))

/-- One row of the batched impact query (the LEFT JOINs can produce NULL
codes, hence the options). -/
structure ImpactRow where
  bank_swift_code : Option String
  branch_code : Option String
  total_accounts : Nat
  active_users : Nat
deriving DecidableEq, Repr

/-- Impact statistics returned per key. -/
structure ImpactStats where
  total_accounts : Nat
  active_users : Nat
deriving DecidableEq, Repr

/-- The dictionary key `f"{swift_code}-{branch_code}"`. -/
def keyOf (swift branch : String) : String := swift ++ "-" ++ branch

/-- Python dict assignment: insert or overwrite. -/
def dictInsert (d : List (String × ImpactStats)) (k : String) (v : ImpactStats) :
    List (String × ImpactStats) :=
  if (d.lookup k).isSome then
    d.map fun q => if q.1 == k then (k, v) else q
  else d ++ [(k, v)]

/-- `DatabaseClient.get_user_bank_account_impact_stats_batch`: one query
covers all pairs (its rows, or the exception it raised, are the
`queryResult` argument — the database engine is outside this repository);
rows with truthy codes populate the map, missing requested pairs are filled
with zeros, and on any exception every requested pair maps to zeros. -/
def get_user_bank_account_impact_stats_batch
    (bank_branch_pairs : List (String × String))
    (queryResult : Except String (List ImpactRow)) :
    List (String × ImpactStats) :=
  if bank_branch_pairs.isEmpty then []
  else
    match queryResult with
    | .error _ =>
      bank_branch_pairs.map fun p => (keyOf p.1 p.2, ⟨0, 0⟩)
    | .ok rows =>
      let stats_dict := rows.foldl
        (fun d row =>
          match row.bank_swift_code, row.branch_code with
          | some sw, some br =>
            if sw != "" && br != "" then
              dictInsert d (keyOf sw br) ⟨row.total_accounts, row.active_users⟩
            else d
          | _, _ => d)
        []
      bank_branch_pairs.foldl
        (fun d p =>
          if (d.lookup (keyOf p.1 p.2)).isSome then d
          else d ++ [(keyOf p.1 p.2, ⟨0, 0⟩)])
        stats_dict

/-- The `(swift_code, branch_code)` pairs collected for the impact query,
in loop order: update entries contribute the new data's codes, delete
entries the old data's codes. -/
def impactPairs (diffs : List BankDiff) : List (String × String) :=
  diffs.filterMap fun d =>
    if d.action == "update" then
      d.new_data.map fun nd => (nd.swift_code, nd.branch_code)
    else if d.action == "delete" then
      d.old_data.map fun od => (od.swift_code, od.branch_code)
    else none

/-- End of `detect_differences`: write the per-key statistics (zero
default) into the update/delete entries. -/
def applyImpactStats (diffs : List BankDiff)
    (stats : List (String × ImpactStats)) : List BankDiff :=
  diffs.map fun d =>
    if d.action == "update" || d.action == "delete" then
      let s := (stats.lookup d.key).getD ⟨0, 0⟩
      { d with total_accounts := s.total_accounts, active_users := s.active_users }
    else d

/-- `DiffDetector._create_summary`. -/
def create_summary (diffs : List BankDiff) : String :=
  let create_count := (diffs.filter fun d => d.action == "create").length
  let update_count := (diffs.filter fun d => d.action == "update").length
  let delete_count := (diffs.filter fun d => d.action == "delete").length
  let impacted := diffs.filter fun d => d.action == "update" || d.action == "delete"
  let total_affected_accounts := (impacted.map fun d => d.total_accounts).sum
  let total_active_users := (impacted.map fun d => d.active_users).sum
  let summary_parts :=
    (if create_count > 0 then ["新規追加: " ++ toString create_count ++ "件"] else []) ++
    (if update_count > 0 then ["更新: " ++ toString update_count ++ "件"] else []) ++
    (if delete_count > 0 then ["削除: " ++ toString delete_count ++ "件"] else [])
  if summary_parts.isEmpty then "変更なし"
  else
    let base_summary := String.intercalate "、" summary_parts
    if total_affected_accounts > 0 then
      base_summary ++ " (UserBankAccount影響: " ++ toString total_affected_accounts ++
        "件、稼働ユーザー: " ++ toString total_active_users ++ "名)"
    else base_summary

/-- `BankUpdateRequestData` (without the executor-side `created_at`). -/
structure BankUpdateRequestData where
  diffs : List BankDiff
  summary : String
  total_changes : Nat
deriving DecidableEq, Repr

/-- `DiffDetector.detect_differences`: the mirror and authoritative keyed
maps are the inputs (the caller's dict comprehensions), the batched impact
query's outcome is `queryResult`; when any update/delete exists the batch
statistics are fetched and applied, and the summary and total count are
derived from the final entries. -/
def detect_differences (current_dict latest_dict : List (String × BankData))
    (queryResult : Except String (List ImpactRow)) : BankUpdateRequestData :=
  let core := detectCore current_dict latest_dict
  let pairs := impactPairs core
  let diffs :=
    if pairs.isEmpty then core
    else applyImpactStats core
      (get_user_bank_account_impact_stats_batch pairs queryResult)
  { diffs := diffs, summary := create_summary diffs, total_changes := diffs.length }

/-! ## Bulk payload store (S3 JSON round trip) -/

/-- JSON values as `dataclasses.asdict` + `json.dumps` / `json.loads`
produce for this payload. -/
inductive Json where
  | null
  | str (s : String)
  | num (n : Nat)
  | obj (fields : List (String × Json))
  | arr (elems : List Json)

/-- `dataclasses.asdict` of one `BankData` (fields in declaration order). -/
def bankDataToJson (bd : BankData) : Json :=
  .obj [("swift_code", .str bd.swift_code), ("bank_name", .str bd.bank_name),
        ("bank_name_kana", .str bd.bank_name_kana),
        ("branch_code", .str bd.branch_code),
        ("branch_name", .str bd.branch_name),
        ("branch_name_kana", .str bd.branch_name_kana)]

/-- An optional snapshot: `None` serializes to JSON null. -/
def optBankDataToJson : Option BankData → Json
  | none => .null
  | some bd => bankDataToJson bd

/-- `dataclasses.asdict` of one `BankDiff`. -/
def bankDiffToJson (d : BankDiff) : Json :=
  .obj [("action", .str d.action), ("key", .str d.key),
        ("old_data", optBankDataToJson d.old_data),
        ("new_data", optBankDataToJson d.new_data),
        ("total_accounts", .num d.total_accounts),
        ("active_users", .num d.active_users)]

/-- `store_diff_data_to_s3`: the JSON array of `asdict(diff)` values that is
dumped, UTF-8 encoded, gzip-compressed and written under the deterministic
key.  `json.dumps` and `gzip.compress` are Python standard-library codecs
outside this repository and are lossless, so the stored payload is modelled
as the structured JSON array itself. -/
def store_diff_data_to_s3 (diffs : List BankDiff) : List Json :=
  diffs.map bankDiffToJson

/-- `BankUpdater._load_diffs_from_s3`: fetch the object, `gzip.decompress`,
`json.loads` — the inverse codec of the store path, yielding the stored
JSON array. -/
def load_diffs_from_s3 (payload : List Json) : List Json := payload

/-- Python dict `get` on a parsed JSON object. -/
def jsonGet (j : Json) (k : String) : Option Json :=
  match j with
  | .obj fields => fields.lookup k
  | _ => none

/-- Python truthiness of a fetched JSON value: absent, null, empty string,
zero and empty containers are falsy. -/
def jsonTruthy : Option Json → Bool
  | none => false
  | some .null => false
  | some (.str s) => s != ""
  | some (.num n) => n != 0
  | some (.obj fields) => !fields.isEmpty
  | some (.arr elems) => !elems.isEmpty

/-- `BankData(**d)`: the six string fields are required (anything else is a
TypeError). -/
def bankDataFromJson (j : Json) : Except String BankData :=
  match jsonGet j "swift_code", jsonGet j "bank_name", jsonGet j "bank_name_kana",
      jsonGet j "branch_code", jsonGet j "branch_name", jsonGet j "branch_name_kana" with
  | some (.str a), some (.str b), some (.str c), some (.str d),
      some (.str e), some (.str f) => .ok ⟨a, b, c, d, e, f⟩
  | _, _, _, _, _, _ => .error "TypeError"

/-- One entry of `BankUpdater._restore_diffs`: the optional snapshots are
rebuilt when truthy, `action` and `key` are required, and the impact counts
default to 0 via `dict.get`. -/
def restoreDiff (j : Json) : Except String BankDiff := do
  let old_data ← (do
    if jsonTruthy (jsonGet j "old_data") then
      match jsonGet j "old_data" with
      | some oj => (bankDataFromJson oj).map some
      | none => .error "unreachable: truthy value is present"
    else pure none)
  let new_data ← (do
    if jsonTruthy (jsonGet j "new_data") then
      match jsonGet j "new_data" with
      | some nj => (bankDataFromJson nj).map some
      | none => .error "unreachable: truthy value is present"
    else pure none)
  let action ← (match jsonGet j "action" with
    | some (.str a) => .ok a
    | some _ => .error "TypeError"
    | none => .error "KeyError")
  let key ← (match jsonGet j "key" with
    | some (.str k) => .ok k
    | some _ => .error "TypeError"
    | none => .error "KeyError")
  let total_accounts := (match jsonGet j "total_accounts" with
    | some (.num n) => n
    | _ => 0)
  let active_users := (match jsonGet j "active_users" with
    | some (.num n) => n
    | _ => 0)
  pure { action := action, key := key, old_data := old_data,
         new_data := new_data, total_accounts := total_accounts,
         active_users := active_users }

/-- `BankUpdater._restore_diffs` over the loaded array (an entry's exception
propagates out of the loop). -/
def restore_diffs (payload : List Json) : Except String (List BankDiff) :=
  payload.mapM restoreDiff

/-- One serialized entry restores to itself. -/
theorem restoreDiff_bankDiffToJson (d : BankDiff) :
    restoreDiff (bankDiffToJson d) = .ok d := by
  obtain ⟨action, key, old_data, new_data, ta, au⟩ := d
  cases old_data <;> cases new_data <;> rfl

/-- C7: the bulk payload store round-trips — serializing, compressing and
storing a diff list, then reading, decompressing and deserializing it,
returns the original list entry by entry and field by field, nested
optional snapshots and impact counts included. -/
theorem c7_round_trip (diffs : List BankDiff) :
    restore_diffs (load_diffs_from_s3 (store_diff_data_to_s3 diffs)) =
      .ok diffs := by
  induction diffs with
  | nil => rfl
  | cons d rest ih =>
    simp only [restore_diffs, load_diffs_from_s3, store_diff_data_to_s3,
      List.map_cons, List.mapM_cons, restoreDiff_bankDiffToJson] at ih ⊢
    rw [ih]
    rfl

/-! ## C8, C9, C10 infrastructure -/

/-- A key absent from an association list looks up to nothing. -/
theorem lookup_eq_none_of_not_mem {α : Type} (l : List (String × α)) (k : String)
    (h : k ∉ l.map Prod.fst) : l.lookup k = none := by
  induction l with
  | nil => rfl
  | cons q rest ih =>
    simp only [List.map_cons, List.mem_cons, not_or] at h
    have hk : (k == q.1) = false := by
      simp only [beq_eq_false_iff_ne, ne_eq]
      exact h.1
    simp [List.lookup, hk, ih h.2]

/-- First loop body, key unknown to the mirror: one create entry. -/
theorem createOrUpdateEntries_create (cur : List (String × BankData))
    (p : String × BankData) (hc : cur.lookup p.1 = none) :
    createOrUpdateEntries cur p =
      [{ action := "create", key := p.1, old_data := none,
         new_data := some p.2 }] := by
  simp [createOrUpdateEntries, hc]

/-- First loop body, key known and canonically different: one update
entry. -/
theorem createOrUpdateEntries_update (cur : List (String × BankData))
    (p : String × BankData) (c : BankData) (hc : cur.lookup p.1 = some c)
    (hd : is_data_different c p.2 = true) :
    createOrUpdateEntries cur p =
      [{ action := "update", key := p.1, old_data := some c,
         new_data := some p.2 }] := by
  simp [createOrUpdateEntries, hc, hd]

/-- First loop body, key known and canonically identical: no entry. -/
theorem createOrUpdateEntries_same (cur : List (String × BankData))
    (p : String × BankData) (c : BankData) (hc : cur.lookup p.1 = some c)
    (hd : is_data_different c p.2 = false) :
    createOrUpdateEntries cur p = [] := by
  simp [createOrUpdateEntries, hc, hd]

/-- Delete loop body, key unknown to the authoritative map: one delete
entry. -/
theorem deleteEntries_delete (lat : List (String × BankData))
    (p : String × BankData) (hc : lat.lookup p.1 = none) :
    deleteEntries lat p =
      [{ action := "delete", key := p.1, old_data := some p.2,
         new_data := none }] := by
  simp [deleteEntries, hc]

/-- Delete loop body, key present in the authoritative map: no entry. -/
theorem deleteEntries_kept (lat : List (String × BankData))
    (p : String × BankData) (c : BankData) (hc : lat.lookup p.1 = some c) :
    deleteEntries lat p = [] := by
  simp [deleteEntries, hc]

/-- Shape of every entry the first detection loop emits for one
authoritative pair. -/
theorem mem_createOrUpdateEntries (cur : List (String × BankData))
    (p : String × BankData) (d : BankDiff)
    (h : d ∈ createOrUpdateEntries cur p) :
    d.key = p.1 ∧ d.new_data = some p.2 ∧ d.total_accounts = 0 ∧
      d.active_users = 0 ∧
      ((d.action = "create" ∧ d.old_data = none ∧ cur.lookup p.1 = none) ∨
        (d.action = "update" ∧
          ∃ c, cur.lookup p.1 = some c ∧ d.old_data = some c ∧
            is_data_different c p.2 = true)) := by
  cases hl : cur.lookup p.1 with
  | none =>
    rw [createOrUpdateEntries_create cur p hl, List.mem_singleton] at h
    subst h
    exact ⟨rfl, rfl, rfl, rfl, Or.inl ⟨rfl, rfl, rfl⟩⟩
  | some c =>
    by_cases hd : is_data_different c p.2 = true
    · rw [createOrUpdateEntries_update cur p c hl hd, List.mem_singleton] at h
      subst h
      exact ⟨rfl, rfl, rfl, rfl, Or.inr ⟨rfl, c, rfl, rfl, hd⟩⟩
    · rw [createOrUpdateEntries_same cur p c hl (by simpa using hd)] at h
      simp at h

/-- Shape of every entry the delete loop emits for one mirror pair. -/
theorem mem_deleteEntries (lat : List (String × BankData))
    (p : String × BankData) (d : BankDiff)
    (h : d ∈ deleteEntries lat p) :
    d = { action := "delete", key := p.1, old_data := some p.2,
          new_data := none } ∧ lat.lookup p.1 = none := by
  cases hl : lat.lookup p.1 with
  | none =>
    rw [deleteEntries_delete lat p hl, List.mem_singleton] at h
    exact ⟨h, rfl⟩
  | some c =>
    rw [deleteEntries_kept lat p c hl] at h
    simp at h

/-- Keys of the first loop's entries come from the authoritative map. -/
theorem loop1_key_mem (cur lat : List (String × BankData)) (d : BankDiff)
    (h : d ∈ lat.flatMap (createOrUpdateEntries cur)) :
    d.key ∈ lat.map Prod.fst := by
  rw [List.mem_flatMap] at h
  obtain ⟨p, hp, hd⟩ := h
  have := (mem_createOrUpdateEntries cur p d hd).1
  rw [this]
  exact List.mem_map_of_mem Prod.fst hp

/-- Keys of the delete loop's entries come from the mirror map. -/
theorem loop2_key_mem (cur lat : List (String × BankData)) (d : BankDiff)
    (h : d ∈ cur.flatMap (deleteEntries lat)) :
    d.key ∈ cur.map Prod.fst := by
  rw [List.mem_flatMap] at h
  obtain ⟨p, hp, hd⟩ := h
  have := congrArg BankDiff.key (mem_deleteEntries lat p d hd).1
  rw [this]
  exact List.mem_map_of_mem Prod.fst hp

/-- The delete loop emits no create and no update entries. -/
theorem loop2_countP_zero (cur lat : List (String × BankData))
    (pred : BankDiff → Bool)
    (hpred : ∀ d : BankDiff, d.action = "delete" → pred d = false) :
    (cur.flatMap (deleteEntries lat)).countP pred = 0 := by
  rw [List.countP_eq_zero]
  intro d hd
  rw [List.mem_flatMap] at hd
  obtain ⟨p, _, hdp⟩ := hd
  have h := (mem_deleteEntries lat p d hdp).1
  have : d.action = "delete" := by rw [h]
  simp [hpred d this]

/-- Create count of the first loop: exactly one per key present in the
authoritative map but not the mirror map. -/
theorem loop1_create_count (cur lat : List (String × BankData)) (k : String)
    (hlat : (lat.map Prod.fst).Nodup) :
    (lat.flatMap (createOrUpdateEntries cur)).countP
        (fun d => d.action == "create" && d.key == k) =
      if (lat.lookup k).isSome ∧ cur.lookup k = none then 1 else 0 := by
  induction lat with
  | nil => simp [List.lookup]
  | cons q rest ih =>
    obtain ⟨qk, qv⟩ := q
    simp only [List.map_cons, List.nodup_cons] at hlat
    rw [List.flatMap_cons, List.countP_append]
    by_cases hk : qk = k
    · subst hk
      have hrest0 : (rest.flatMap (createOrUpdateEntries cur)).countP
          (fun d => d.action == "create" && d.key == qk) = 0 := by
        rw [List.countP_eq_zero]
        intro d hd
        have hmem := loop1_key_mem cur rest d hd
        simp only [Bool.and_eq_true, beq_iff_eq, not_and]
        intro _ hkey
        exact absurd (hkey ▸ hmem) hlat.1
      rw [hrest0, Nat.add_zero]
      have hl : ((qk, qv) :: rest).lookup qk = some qv := by
        simp [List.lookup]
      rw [hl]
      cases hc : cur.lookup qk with
      | none =>
        rw [createOrUpdateEntries_create cur (qk, qv) hc]
        simp
      | some c =>
        by_cases hd : is_data_different c qv = true
        · rw [createOrUpdateEntries_update cur (qk, qv) c hc hd]
          simp
        · rw [createOrUpdateEntries_same cur (qk, qv) c hc (by simpa using hd)]
          simp
    · have hhead : (createOrUpdateEntries cur (qk, qv)).countP
          (fun d => d.action == "create" && d.key == k) = 0 := by
        rw [List.countP_eq_zero]
        intro d hd
        have hkey' := (mem_createOrUpdateEntries cur (qk, qv) d hd).1
        simp only [Bool.and_eq_true, beq_iff_eq, not_and]
        intro _ hkey
        exact hk (hkey'.symm.trans hkey)
      rw [hhead, Nat.zero_add, ih hlat.2]
      have hlk : ((qk, qv) :: rest).lookup k = rest.lookup k := by
        have hbk : (k == qk) = false := by
          simp only [beq_eq_false_iff_ne, ne_eq]
          exact fun hkq => hk hkq.symm
        simp [List.lookup, hbk]
      rw [hlk]

/-- The first loop emits no delete entries. -/
theorem loop1_countP_zero (cur lat : List (String × BankData))
    (pred : BankDiff → Bool)
    (hpred : ∀ d : BankDiff, d.action = "create" ∨ d.action = "update" →
      pred d = false) :
    (lat.flatMap (createOrUpdateEntries cur)).countP pred = 0 := by
  rw [List.countP_eq_zero]
  intro d hd
  rw [List.mem_flatMap] at hd
  obtain ⟨p, _, hdp⟩ := hd
  rcases (mem_createOrUpdateEntries cur p d hdp).2.2.2.2 with ⟨ha, _⟩ | ⟨ha, _⟩ <;>
    simp [hpred d (by simp [ha])]

/-- Delete count of the second loop: exactly one per key present in the
mirror map but not the authoritative map. -/
theorem loop2_delete_count (cur lat : List (String × BankData)) (k : String)
    (hcur : (cur.map Prod.fst).Nodup) :
    (cur.flatMap (deleteEntries lat)).countP
        (fun d => d.action == "delete" && d.key == k) =
      if (cur.lookup k).isSome ∧ lat.lookup k = none then 1 else 0 := by
  induction cur with
  | nil => simp [List.lookup]
  | cons q rest ih =>
    obtain ⟨qk, qv⟩ := q
    simp only [List.map_cons, List.nodup_cons] at hcur
    rw [List.flatMap_cons, List.countP_append]
    by_cases hk : qk = k
    · subst hk
      have hrest0 : (rest.flatMap (deleteEntries lat)).countP
          (fun d => d.action == "delete" && d.key == qk) = 0 := by
        rw [List.countP_eq_zero]
        intro d hd
        have hmem := loop2_key_mem rest lat d hd
        simp only [Bool.and_eq_true, beq_iff_eq, not_and]
        intro _ hkey
        exact absurd (hkey ▸ hmem) hcur.1
      rw [hrest0, Nat.add_zero]
      have hl : ((qk, qv) :: rest).lookup qk = some qv := by
        simp [List.lookup]
      rw [hl]
      cases hc : lat.lookup qk with
      | none =>
        rw [deleteEntries_delete lat (qk, qv) hc]
        simp
      | some c =>
        rw [deleteEntries_kept lat (qk, qv) c hc]
        simp
    · have hhead : (deleteEntries lat (qk, qv)).countP
          (fun d => d.action == "delete" && d.key == k) = 0 := by
        rw [List.countP_eq_zero]
        intro d hd
        have hkey' := congrArg BankDiff.key (mem_deleteEntries lat (qk, qv) d hd).1
        simp only [Bool.and_eq_true, beq_iff_eq, not_and]
        intro _ hkey
        exact hk (hkey'.symm.trans hkey)
      rw [hhead, Nat.zero_add, ih hcur.2]
      have hlk : ((qk, qv) :: rest).lookup k = rest.lookup k := by
        have hbk : (k == qk) = false := by
          simp only [beq_eq_false_iff_ne, ne_eq]
          exact fun hkq => hk hkq.symm
        simp [List.lookup, hbk]
      rw [hlk]

/-- C8: over any pair of keyed input datasets, the detector emits exactly
one create entry per key present only in the authoritative map and exactly
one delete entry per key present only in the mirror map; a key present in
both maps yields neither; every create entry carries only new data and
every delete entry only old data. -/
theorem c8_create_delete_partition (cur lat : List (String × BankData))
    (hcur : (cur.map Prod.fst).Nodup) (hlat : (lat.map Prod.fst).Nodup)
    (k : String) :
    ((detectCore cur lat).countP (fun d => d.action == "create" && d.key == k) =
      if (lat.lookup k).isSome ∧ cur.lookup k = none then 1 else 0)
  ∧ ((detectCore cur lat).countP (fun d => d.action == "delete" && d.key == k) =
      if (cur.lookup k).isSome ∧ lat.lookup k = none then 1 else 0)
  ∧ (∀ d ∈ detectCore cur lat, d.action = "create" →
      d.old_data = none ∧ d.new_data ≠ none)
  ∧ (∀ d ∈ detectCore cur lat, d.action = "delete" →
      d.new_data = none ∧ d.old_data ≠ none) := by
  refine ⟨?_, ?_, ?_, ?_⟩
  · rw [detectCore, List.countP_append, loop1_create_count cur lat k hlat,
      loop2_countP_zero cur lat _ (fun d ha => by simp [ha]), Nat.add_zero]
  · rw [detectCore, List.countP_append,
      loop1_countP_zero cur lat _ (fun d ha => by rcases ha with ha | ha <;> simp [ha]),
      loop2_delete_count cur lat k hcur, Nat.zero_add]
  · intro d hd ha
    rw [detectCore, List.mem_append] at hd
    rcases hd with hd | hd
    · obtain ⟨p, _, hdp⟩ := List.mem_flatMap.mp hd
      have hm := mem_createOrUpdateEntries cur p d hdp
      rcases hm.2.2.2.2 with ⟨_, hod, _⟩ | ⟨ha2, _⟩
      · refine ⟨hod, ?_⟩
        rw [hm.2.1]
        simp
      · rw [ha] at ha2
        simp at ha2
    · obtain ⟨p, _, hdp⟩ := List.mem_flatMap.mp hd
      have hm := (mem_deleteEntries lat p d hdp).1
      rw [hm] at ha
      simp at ha
  · intro d hd ha
    rw [detectCore, List.mem_append] at hd
    rcases hd with hd | hd
    · obtain ⟨p, _, hdp⟩ := List.mem_flatMap.mp hd
      rcases (mem_createOrUpdateEntries cur p d hdp).2.2.2.2 with ⟨ha2, _⟩ | ⟨ha2, _⟩ <;>
        · rw [ha] at ha2
          simp at ha2
    · obtain ⟨p, _, hdp⟩ := List.mem_flatMap.mp hd
      have hm := (mem_deleteEntries lat p d hdp).1
      subst hm
      simp

/-- C8 witness: one mirror-only key and one authoritative-only key. -/
theorem c8_create_delete_partition_witness :
    ((detectCore [("0001-001", sampleBank "001")] [("0001-002", sampleBank "002")]).countP
        (fun d => d.action == "create" && d.key == "0001-002") = 1)
  ∧ ((detectCore [("0001-001", sampleBank "001")] [("0001-002", sampleBank "002")]).countP
        (fun d => d.action == "delete" && d.key == "0001-001") = 1) :=
  ⟨((c8_create_delete_partition [("0001-001", sampleBank "001")]
      [("0001-002", sampleBank "002")] (by decide) (by decide) "0001-002").1).trans
      (by decide),
    ((c8_create_delete_partition [("0001-001", sampleBank "001")]
      [("0001-002", sampleBank "002")] (by decide) (by decide) "0001-001").2.1).trans
      (by decide)⟩

/-- Update count of the first loop for a key present in both maps. -/
theorem loop1_update_count (cur lat : List (String × BankData)) (k : String)
    (c n : BankData) (hlat : (lat.map Prod.fst).Nodup)
    (hc : cur.lookup k = some c) (hn : lat.lookup k = some n) :
    (lat.flatMap (createOrUpdateEntries cur)).countP
        (fun d => d.action == "update" && d.key == k) =
      if is_data_different c n then 1 else 0 := by
  induction lat with
  | nil => simp [List.lookup] at hn
  | cons q rest ih =>
    obtain ⟨qk, qv⟩ := q
    simp only [List.map_cons, List.nodup_cons] at hlat
    rw [List.flatMap_cons, List.countP_append]
    by_cases hk : qk = k
    · subst hk
      have hqv : qv = n := by
        have hl : ((qk, qv) :: rest).lookup qk = some qv := by
          simp [List.lookup]
        rw [hl] at hn
        exact Option.some.inj hn
      rw [hqv]
      have hrest0 : (rest.flatMap (createOrUpdateEntries cur)).countP
          (fun d => d.action == "update" && d.key == qk) = 0 := by
        rw [List.countP_eq_zero]
        intro d hd
        have hmem := loop1_key_mem cur rest d hd
        simp only [Bool.and_eq_true, beq_iff_eq, not_and]
        intro _ hkey
        exact absurd (hkey ▸ hmem) hlat.1
      rw [hrest0, Nat.add_zero]
      by_cases hd : is_data_different c n = true
      · rw [createOrUpdateEntries_update cur (qk, n) c hc hd]
        simp [hd]
      · rw [createOrUpdateEntries_same cur (qk, n) c hc (by simpa using hd)]
        simp [hd]
    · have hhead : (createOrUpdateEntries cur (qk, qv)).countP
          (fun d => d.action == "update" && d.key == k) = 0 := by
        rw [List.countP_eq_zero]
        intro d hd
        have hkey' := (mem_createOrUpdateEntries cur (qk, qv) d hd).1
        simp only [Bool.and_eq_true, beq_iff_eq, not_and]
        intro _ hkey
        exact hk (hkey'.symm.trans hkey)
      have hlk : ((qk, qv) :: rest).lookup k = rest.lookup k := by
        have hbk : (k == qk) = false := by
          simp only [beq_eq_false_iff_ne, ne_eq]
          exact fun hkq => hk hkq.symm
        simp [List.lookup, hbk]
      rw [hlk] at hn
      rw [hhead, Nat.zero_add, ih hlat.2 hn]

/-- Mirror snapshot for the suffix-synonym scenario ("Central Branch"). -/
def centralMirror : BankData :=
  ⟨"0001", "テスト銀行", "ﾃｽﾄ", "001", "中央支店", "ﾁｭｳｵｳ"⟩

/-- Authoritative snapshot for the suffix-synonym scenario ("Central
Sub-branch", a synonym suffix of the same base name). -/
def centralAuth : BankData :=
  ⟨"0001", "テスト銀行", "ﾃｽﾄ", "001", "中央支所", "ﾁｭｳｵｳ"⟩

/-- C9: for a key present in both datasets the detector emits an update
entry exactly when `_is_data_different` holds — i.e. when a monitored field
still differs after canonicalization and suffix handling; and whenever the
monitored fields agree canonically (bank name stripped-equal, phonetic
fields equal in half-width form, branch-name bases equal with
synonym-equivalent suffixes) no entry is emitted for that key. -/
theorem c9_update_iff_canonically_different (cur lat : List (String × BankData))
    (hlat : (lat.map Prod.fst).Nodup) (k : String) (c n : BankData)
    (hc : cur.lookup k = some c) (hn : lat.lookup k = some n) :
    ((detectCore cur lat).countP (fun d => d.action == "update" && d.key == k) =
      if is_data_different c n then 1 else 0)
  ∧ (∀ c' n' : BankData,
      pyStrip c'.bank_name = pyStrip n'.bank_name →
      pyStrip (convert_kana_to_hankaku c'.bank_name_kana) =
        pyStrip (convert_kana_to_hankaku n'.bank_name_kana) →
      pyStrip (convert_kana_to_hankaku c'.branch_name_kana) =
        pyStrip (convert_kana_to_hankaku n'.branch_name_kana) →
      (split_suffix c'.branch_name).1 = (split_suffix n'.branch_name).1 →
      is_equivalent_suffix (split_suffix c'.branch_name).2
        (split_suffix n'.branch_name).2 = true →
      is_data_different c' n' = false) := by
  constructor
  · rw [detectCore, List.countP_append,
      loop2_countP_zero cur lat _ (fun d ha => by simp [ha]), Nat.add_zero,
      loop1_update_count cur lat k c n hlat hc hn]
  · intro c' n' h1 h2 h3 h4 h5
    unfold is_data_different
    simp [h1, h2, h3, h4, h5]

/-- C9 witness: mirror "中央支店" vs authoritative "中央支所" — same base,
synonym suffixes, all other fields canonically identical — is not a
difference, and no update entry is emitted for the key. -/
theorem c9_update_iff_canonically_different_witness :
    is_data_different centralMirror centralAuth = false ∧
    ((detectCore [("0001-001", centralMirror)] [("0001-001", centralAuth)]).countP
        (fun d => d.action == "update" && d.key == "0001-001") = 0) :=
  ⟨(c9_update_iff_canonically_different [("0001-001", centralMirror)]
      [("0001-001", centralAuth)] (by decide) "0001-001" centralMirror centralAuth
      (by decide) (by decide)).2 centralMirror centralAuth
      (by decide) (by decide) (by decide) (by decide) (by decide),
    ((c9_update_iff_canonically_different [("0001-001", centralMirror)]
      [("0001-001", centralAuth)] (by decide) "0001-001" centralMirror centralAuth
      (by decide) (by decide)).1).trans (by decide)⟩

/-- Every entry of the detection loops carries zero impact counts (they are
only filled in afterwards). -/
theorem detectCore_counts_zero (cur lat : List (String × BankData)) (d : BankDiff)
    (h : d ∈ detectCore cur lat) :
    d.total_accounts = 0 ∧ d.active_users = 0 := by
  rw [detectCore, List.mem_append] at h
  rcases h with h | h
  · obtain ⟨p, _, hdp⟩ := List.mem_flatMap.mp h
    have hm := mem_createOrUpdateEntries cur p d hdp
    exact ⟨hm.2.2.1, hm.2.2.2.1⟩
  · obtain ⟨p, _, hdp⟩ := List.mem_flatMap.mp h
    have hm := (mem_deleteEntries lat p d hdp).1
    rw [hm]
    exact ⟨rfl, rfl⟩

/-- Looking any key up in an all-zero stats map yields zeros. -/
theorem lookup_getD_zero (stats : List (String × ImpactStats)) (k : String)
    (hsz : ∀ q ∈ stats, q.2 = (⟨0, 0⟩ : ImpactStats)) :
    (stats.lookup k).getD ⟨0, 0⟩ = (⟨0, 0⟩ : ImpactStats) := by
  induction stats with
  | nil => rfl
  | cons q rest ih =>
    obtain ⟨qk, qv⟩ := q
    have hq : qv = (⟨0, 0⟩ : ImpactStats) := hsz (qk, qv) (List.mem_cons_self _ _)
    cases hbk : (k == qk) with
    | true => simp [List.lookup, hbk, hq]
    | false =>
      have ih2 := ih fun q2 h2 => hsz q2 (List.mem_cons_of_mem _ h2)
      simpa [List.lookup, hbk] using ih2

/-- Applying an all-zero stats map to entries that already carry zero
counts changes nothing. -/
theorem applyImpactStats_zero (diffs : List BankDiff)
    (stats : List (String × ImpactStats))
    (hsz : ∀ q ∈ stats, q.2 = (⟨0, 0⟩ : ImpactStats)) :
    (∀ d ∈ diffs, d.total_accounts = 0 ∧ d.active_users = 0) →
      applyImpactStats diffs stats = diffs := by
  induction diffs with
  | nil => intro _; rfl
  | cons d rest ih =>
    intro hdz
    have hrest := ih fun d2 h2 => hdz d2 (List.mem_cons_of_mem _ h2)
    have hd := hdz d (List.mem_cons_self _ _)
    simp only [applyImpactStats, List.map_cons] at hrest ⊢
    rw [hrest]
    by_cases hud : (d.action == "update" || d.action == "delete") = true
    · rw [if_pos hud, lookup_getD_zero stats d.key hsz]
      obtain ⟨da, dk, dod, dnd, dta, dau⟩ := d
      obtain ⟨h1, h2⟩ := hd
      simp only [BankDiff.total_accounts] at h1
      simp only [BankDiff.active_users] at h2
      simp [h1, h2]
    · rw [if_neg hud]

/-- Every value of the batch lookup's error fallback is zero. -/
theorem batch_error_all_zero (pairs : List (String × String)) (e : String)
    (q : String × ImpactStats)
    (hq : q ∈ get_user_bank_account_impact_stats_batch pairs (.error e)) :
    q.2 = (⟨0, 0⟩ : ImpactStats) := by
  unfold get_user_bank_account_impact_stats_batch at hq
  by_cases hp : pairs.isEmpty = true
  · rw [if_pos hp] at hq
    simp at hq
  · rw [if_neg hp] at hq
    obtain ⟨p, _, hpq⟩ := List.mem_map.mp hq
    rw [← hpq]

/-- Every requested pair resolves to zeros in the error fallback map. -/
theorem lookup_error_map (l : List (String × String)) (p : String × String)
    (hp : p ∈ l) :
    ((l.map fun q => (keyOf q.1 q.2, (⟨0, 0⟩ : ImpactStats))).lookup
      (keyOf p.1 p.2)) = some ⟨0, 0⟩ := by
  induction l with
  | nil => simp at hp
  | cons q rest ih =>
    rw [List.map_cons]
    cases hbk : (keyOf p.1 p.2 == keyOf q.1 q.2) with
    | true => simp [List.lookup, hbk]
    | false =>
      have hp2 : p ∈ rest := by
        rcases List.mem_cons.mp hp with h | h
        · subst h
          simp at hbk
        · exact h
      simp [List.lookup, hbk, ih hp2]

/-- C10: a database failure in the batched impact lookup is contained — on
any exception the lookup returns a map assigning zero statistics to every
requested pair, and `detect_differences` still returns the complete batch
(the same entries the detection loops produced) with zero impact counts on
every entry instead of failing. -/
theorem c10_impact_failure_isolated (pairs : List (String × String)) (e : String)
    (cur lat : List (String × BankData)) :
    (pairs ≠ [] → ∀ p ∈ pairs,
      (get_user_bank_account_impact_stats_batch pairs (.error e)).lookup
        (keyOf p.1 p.2) = some ⟨0, 0⟩)
  ∧ (detect_differences cur lat (.error e)).diffs = detectCore cur lat
  ∧ (∀ d ∈ (detect_differences cur lat (.error e)).diffs,
      d.total_accounts = 0 ∧ d.active_users = 0) := by
  have hdiffs : (detect_differences cur lat (.error e)).diffs =
      detectCore cur lat := by
    have hshape : (detect_differences cur lat (.error e)).diffs =
        (if (impactPairs (detectCore cur lat)).isEmpty = true
         then detectCore cur lat
         else applyImpactStats (detectCore cur lat)
           (get_user_bank_account_impact_stats_batch
             (impactPairs (detectCore cur lat)) (.error e))) := rfl
    rw [hshape]
    by_cases hp : (impactPairs (detectCore cur lat)).isEmpty = true
    · rw [if_pos hp]
    · rw [if_neg hp]
      exact applyImpactStats_zero _ _
        (batch_error_all_zero (impactPairs (detectCore cur lat)) e)
        (detectCore_counts_zero cur lat)
  refine ⟨?_, hdiffs, ?_⟩
  · intro hne p hp
    unfold get_user_bank_account_impact_stats_batch
    have hne2 : pairs.isEmpty = false := by
      cases pairs with
      | nil => exact absurd rfl hne
      | cons q rest => rfl
    rw [hne2]
    exact lookup_error_map pairs p hp
  · intro d hd
    rw [hdiffs] at hd
    exact detectCore_counts_zero cur lat d hd

/-- C10 witness: a one-pair lookup under a raised exception, and a
one-entry detection run whose impact query fails. -/
theorem c10_impact_failure_isolated_witness :
    (get_user_bank_account_impact_stats_batch [("0001", "001")]
        (.error "db connection failed")).lookup (keyOf "0001" "001") =
      some ⟨0, 0⟩ ∧
    (detect_differences [("0001-001", sampleBank "001")] []
        (.error "db connection failed")).diffs =
      detectCore [("0001-001", sampleBank "001")] [] :=
  ⟨(c10_impact_failure_isolated [("0001", "001")] "db connection failed"
      [("0001-001", sampleBank "001")] []).1 (by decide) ("0001", "001") (by decide),
    (c10_impact_failure_isolated [("0001", "001")] "db connection failed"
      [("0001-001", sampleBank "001")] []).2.1⟩

end Zengin
